import Mathlib

set_option linter.unnecessarySeqFocus false
set_option linter.unreachableTactic false
set_option linter.unusedTactic false

/-!
Shallow embedding of the BanTracker bot (src/bot.py).

The `BanTracker` class is modelled by the `Tracker` structure; its
`check_bans` coroutine becomes a pure function from the tracker state,
the outcome of the HTTP fetch and the current time to the new state and
the list of produced notifications.  `get_stats_embed` becomes a pure
function producing a `StatsEmbed` record.  The bot-level subscription
state (`channel_ids` plus the persisted `channels` entry of
`config.json`) is modelled by `Registry`, and the `subscribe` /
`unsubscribe` command bodies, the `on_ready` channel validation and the
`check_loop` task body become functions on it.  Timestamps are natural
numbers, counters are integers (Python ints), notification strings are
modelled by the structured `Embed` type carrying exactly the data
interpolated into the f-strings.
-/

/-- State of the `BanTracker` class: fields set in `BanTracker.__init__`.
`owd_bans` / `ostaff_bans` hold the previously observed counters (`None`
until stored); they are `Option Int` because they are assigned from
`curr_stats.get(...)`, which can itself yield `None`. -/
structure Tracker where
  owd_bans : Option Int
  ostaff_bans : Option Int
  total_wd_tracked : Int
  total_staff_tracked : Int
  start_time : Nat
  last_fetch_time : Option Nat
  consecutive_errors : Nat
deriving Repr, DecidableEq

/-- `BanTracker.__init__`: previous counters absent, totals zero, no
successful fetch yet, error counter zero. -/
def Tracker.init (start_time : Nat) : Tracker :=
  { owd_bans := none
    ostaff_bans := none
    total_wd_tracked := 0
    total_staff_tracked := 0
    start_time := start_time
    last_fetch_time := none
    consecutive_errors := 0 }

/-- The truthy `record` object of the fetched JSON body: the two fields
read with `curr_stats.get("watchdog_total")` / `.get("staff_total")`,
each possibly absent. -/
structure RecordData where
  watchdog_total : Option Int
  staff_total : Option Int
deriving Repr, DecidableEq

/-- Outcome of the HTTP fetch inside `check_bans`:
`raised` models an exception escaping the request/JSON parsing
(network or parse error), `body r` a parsed JSON body whose
`data.get('record')` is `r` (`none` covers both a missing `record` key
and a falsy value such as an empty object, matching
`if not curr_stats`). -/
inductive FetchOutcome where
  | raised : FetchOutcome
  | body : Option RecordData → FetchOutcome
deriving Repr, DecidableEq

/-- A notification message appended to the `embeds` list by
`check_bans`, keeping the data interpolated into the f-string: the
delta and the updated cumulative total for the category. -/
inductive Embed where
  | watchdog : Int → Int → Embed
  | staff : Int → Int → Embed
deriving Repr, DecidableEq

/-- `BanTracker.check_bans` (src/bot.py lines 61-102) as a function of
the fetch outcome and the current time, returning the updated state and
the produced notifications.

Branches, in source order:
* an exception during the request/parse lands in the `except` block:
  `consecutive_errors += 1`, return `[]`;
* `data.get('record')` falsy: return `[]` with nothing touched;
* otherwise `last_fetch_time` and `consecutive_errors` are set first
  (lines 77-78); if both previous counters are present the deltas are
  computed — a `None` field there raises `TypeError` from the
  subtraction, caught by the same `except` block after lines 77-78
  already ran; positive deltas update the totals and append embeds;
  finally the previous counters are overwritten and the embeds
  returned. -/
def check_bans (st : Tracker) (outcome : FetchOutcome) (now : Nat) :
    Tracker × List Embed :=
  match outcome with
  | FetchOutcome.raised =>
      ({ st with consecutive_errors := st.consecutive_errors + 1 }, [])
  | FetchOutcome.body none => (st, [])
  | FetchOutcome.body (some r) =>
      let wd_bans := r.watchdog_total
      let staff_bans := r.staff_total
      let st1 := { st with last_fetch_time := some now, consecutive_errors := 0 }
      match st.owd_bans, st.ostaff_bans with
      | some owd, some ostaff =>
          match wd_bans, staff_bans with
          | some wd, some staff =>
              let wban_dif := wd - owd
              let sban_dif := staff - ostaff
              let st2 :=
                if wban_dif > 0 then
                  { st1 with total_wd_tracked := st1.total_wd_tracked + wban_dif }
                else st1
              let e1 : List Embed :=
                if wban_dif > 0 then
                  [Embed.watchdog wban_dif (st1.total_wd_tracked + wban_dif)]
                else []
              let st3 :=
                if sban_dif > 0 then
                  { st2 with total_staff_tracked := st2.total_staff_tracked + sban_dif }
                else st2
              let e2 : List Embed :=
                if sban_dif > 0 then
                  [Embed.staff sban_dif (st2.total_staff_tracked + sban_dif)]
                else []
              ({ st3 with owd_bans := wd_bans, ostaff_bans := staff_bans }, e1 ++ e2)
          | _, _ =>
              ({ st1 with consecutive_errors := st1.consecutive_errors + 1 }, [])
      | _, _ =>
          ({ st1 with owd_bans := wd_bans, ostaff_bans := staff_bans }, [])

/-- The statistics embed built by `BanTracker.get_stats_embed`
(src/bot.py lines 104-125), keeping the data of each field. Optional
fields are `none` when the corresponding `add_field` is skipped. -/
structure StatsEmbed where
  watchdog_tracked : Int
  staff_tracked : Int
  total_tracked : Int
  uptime : Nat
  last_check : Option Nat
  current_total_bans : Option Int
deriving Repr, DecidableEq

/-- `BanTracker.get_stats_embed`.  The guards mirror Python truthiness:
`if self.last_fetch_time:` is false for `None` and for timestamp `0`;
`if self.owd_bans and self.ostaff_bans:` is false when either previous
counter is `None` or `0`. -/
def get_stats_embed (st : Tracker) (now : Nat) : StatsEmbed :=
  { watchdog_tracked := st.total_wd_tracked
    staff_tracked := st.total_staff_tracked
    total_tracked := st.total_wd_tracked + st.total_staff_tracked
    uptime := now - st.start_time
    last_check :=
      match st.last_fetch_time with
      | some t => if t ≠ 0 then some t else none
      | none => none
    current_total_bans :=
      match st.owd_bans, st.ostaff_bans with
      | some a, some b => if a ≠ 0 ∧ b ≠ 0 then some (a + b) else none
      | _, _ => none }

/-- Subscription state of `BanTrackerBot`: the in-memory
`self.channel_ids` list and the persisted `channels` entry of
`config.json` (written by `self.jsonconfig.update("channels", ...)`). -/
structure Registry where
  channel_ids : List Int
  persisted : List Int
deriving Repr, DecidableEq

/-- Body of the `subscribe` command (src/bot.py lines 177-183), after
the external permission gate: append the channel id if absent and
persist; otherwise leave everything unchanged. -/
def subscribe (reg : Registry) (channel_id : Int) : Registry :=
  if channel_id ∉ reg.channel_ids then
    let ids := reg.channel_ids ++ [channel_id]
    { channel_ids := ids, persisted := ids }
  else reg

/-- Body of the `unsubscribe` command (src/bot.py lines 195-201):
remove the first occurrence of the channel id (`list.remove`) and
persist if it was present; otherwise leave everything unchanged. -/
def unsubscribe (reg : Registry) (channel_id : Int) : Registry :=
  if channel_id ∈ reg.channel_ids then
    let ids := reg.channel_ids.erase channel_id
    { channel_ids := ids, persisted := ids }
  else reg

/-- One iteration of the channel-validation loop of `on_ready`
(src/bot.py lines 143-146) on the accumulator
`(invalid_channels, channel_ids)`: an id the client cannot resolve
(`get_channel(...) is None`) is collected and removed
(`list.remove`, first occurrence) from the live list.
`get_channel id = true` means the id resolves. -/
def validateStep (get_channel : Int → Bool)
    (acc : List Int × List Int) (channel_id : Int) : List Int × List Int :=
  if get_channel channel_id then acc
  else (acc.1 ++ [channel_id], acc.2.erase channel_id)

/-- The channel-validation loop of `on_ready` (src/bot.py lines
142-150): iterate over a copy of `channel_ids`, collecting and removing
unresolvable ids; persist only if something was collected. -/
def validate_channels (get_channel : Int → Bool) (reg : Registry) : Registry :=
  let r := reg.channel_ids.foldl (validateStep get_channel) ([], reg.channel_ids)
  if r.1 ≠ [] then { channel_ids := r.2, persisted := r.2 }
  else { reg with channel_ids := r.2 }

/-- Outcome of `channel.send` for one destination during a tick:
success, `discord.Forbidden`, or `discord.HTTPException`. -/
inductive SendOutcome where
  | ok : SendOutcome
  | forbidden : SendOutcome
  | httpError : SendOutcome
deriving Repr, DecidableEq

/-- One iteration of the delivery sweep of `check_loop` (src/bot.py
lines 243-255) on the accumulator `(failed_channels, delivered)`: an
unresolvable channel or a `Forbidden` error appends to
`failed_channels`; an `HTTPException` is only logged; a successful send
is recorded in `delivered` (channels that received the messages, kept
for stating delivery facts). -/
def sweepStep (get_channel : Int → Bool) (send : Int → SendOutcome)
    (acc : List Int × List Int) (channel_id : Int) : List Int × List Int :=
  if get_channel channel_id then
    match send channel_id with
    | SendOutcome.ok => (acc.1, acc.2 ++ [channel_id])
    | SendOutcome.forbidden => (acc.1 ++ [channel_id], acc.2)
    | SendOutcome.httpError => acc
  else (acc.1 ++ [channel_id], acc.2)

/-- One iteration of the pruning loop of `check_loop` (src/bot.py lines
258-260): `if channel_id in self.channel_ids: self.channel_ids.remove(channel_id)`. -/
def pruneStep (l : List Int) (channel_id : Int) : List Int :=
  if channel_id ∈ l then l.erase channel_id else l

/-- Body of one `check_loop` tick (src/bot.py lines 238-262):
fetch and update the tracker via `check_bans`; if any notifications
were produced, sweep over the subscribed channels, then remove every
channel collected in `failed_channels` and persist if that list is
nonempty.  Returns the new tracker, the new registry and the list of
channels that received the notifications. -/
def check_loop (get_channel : Int → Bool) (send : Int → SendOutcome)
    (tr : Tracker) (reg : Registry) (outcome : FetchOutcome) (now : Nat) :
    Tracker × Registry × List Int :=
  let r := check_bans tr outcome now
  let tr2 := r.1
  let bans := r.2
  if bans ≠ [] then
    let s := reg.channel_ids.foldl (sweepStep get_channel send) ([], [])
    let failed_channels := s.1
    let delivered := s.2
    if failed_channels ≠ [] then
      let ids := failed_channels.foldl pruneStep reg.channel_ids
      (tr2, { channel_ids := ids, persisted := ids }, delivered)
    else (tr2, reg, delivered)
  else (tr2, reg, [])

/-- Feeding a sequence of successful fetches (records with both counter
fields present) to the tracker, one `check_bans` call per element. -/
def observeRun (st : Tracker) (obs : List (Int × Int)) (now : Nat) : Tracker :=
  obs.foldl
    (fun s p =>
      (check_bans s (FetchOutcome.body (some ⟨some p.1, some p.2⟩)) now).1)
    st

/-- Sum of the strictly positive increments of a counter sequence,
relative to a previous value `prev` (spec-side reference function). -/
def posDeltaSumFrom (prev : Int) : List Int → Int
  | [] => 0
  | x :: xs => (if x - prev > 0 then x - prev else 0) + posDeltaSumFrom x xs

/-- Sum of the strictly positive deltas between consecutive elements of
a counter sequence; the first element is the baseline (spec-side
reference function). -/
def posDeltaSum : List Int → Int
  | [] => 0
  | x :: xs => posDeltaSumFrom x xs

/-! ### Helper lemmas -/

/-- In the branch of `check_bans` with a stored baseline and both record
fields present, the tracker fields after the call. -/
lemma check_bans_step (st : Tracker) (a b wd staff : Int) (now : Nat)
    (h1 : st.owd_bans = some a) (h2 : st.ostaff_bans = some b) :
    (check_bans st (FetchOutcome.body (some ⟨some wd, some staff⟩)) now).1 =
      { st with owd_bans := some wd, ostaff_bans := some staff,
                last_fetch_time := some now, consecutive_errors := 0,
                total_wd_tracked :=
                  st.total_wd_tracked + (if wd - a > 0 then wd - a else 0),
                total_staff_tracked :=
                  st.total_staff_tracked + (if staff - b > 0 then staff - b else 0) } := by
  rcases st with ⟨o1, o2, tw, ts, s, l, c⟩
  simp only [Tracker.mk.injEq] at h1 h2
  subst h1
  subst h2
  simp only [check_bans]
  split_ifs <;> simp

/-- The notifications produced by `check_bans` in the baseline branch. -/
lemma check_bans_step_embeds (st : Tracker) (a b wd staff : Int) (now : Nat)
    (h1 : st.owd_bans = some a) (h2 : st.ostaff_bans = some b) :
    (check_bans st (FetchOutcome.body (some ⟨some wd, some staff⟩)) now).2 =
      (if wd - a > 0 then
        [Embed.watchdog (wd - a) (st.total_wd_tracked + (wd - a))] else []) ++
      (if staff - b > 0 then
        [Embed.staff (staff - b) (st.total_staff_tracked + (staff - b))] else []) := by
  rcases st with ⟨o1, o2, tw, ts, s, l, c⟩
  simp only [Tracker.mk.injEq] at h1 h2
  subst h1
  subst h2
  simp only [check_bans]
  split_ifs <;> simp

/-- The first successful observation (no stored baseline) stores the
record fields and produces nothing. -/
lemma check_bans_first (st : Tracker) (wd staff : Option Int) (now : Nat)
    (h1 : st.owd_bans = none) (h2 : st.ostaff_bans = none) :
    check_bans st (FetchOutcome.body (some ⟨wd, staff⟩)) now =
      ({ st with owd_bans := wd, ostaff_bans := staff,
                 last_fetch_time := some now, consecutive_errors := 0 }, []) := by
  rcases st with ⟨o1, o2, tw, ts, s, l, c⟩
  simp only [Tracker.mk.injEq] at h1 h2
  subst h1
  subst h2
  rfl

/-! ### Claims -/

/-- Claim C2: with no previous counter values stored, a successful
observation returns no notifications, stores the supplied counts as the
baseline, updates the last-successful-fetch time and resets the
consecutive error count to 0. -/
theorem first_observe_establishes_baseline (st : Tracker) (wd staff : Int) (now : Nat)
    (h1 : st.owd_bans = none) (h2 : st.ostaff_bans = none) :
    check_bans st (FetchOutcome.body (some ⟨some wd, some staff⟩)) now =
      ({ st with owd_bans := some wd, ostaff_bans := some staff,
                 last_fetch_time := some now, consecutive_errors := 0 }, []) :=
  check_bans_first st (some wd) (some staff) now h1 h2

/-- Witness for C2 at a concrete freshly constructed tracker. -/
theorem first_observe_establishes_baseline_witness :
    check_bans (Tracker.init 0) (FetchOutcome.body (some ⟨some 7, some 8⟩)) 5 =
      ({ Tracker.init 0 with
          owd_bans := some 7
          ostaff_bans := some 8
          last_fetch_time := some 5
          consecutive_errors := 0 }, []) :=
  first_observe_establishes_baseline (Tracker.init 0) 7 8 5 rfl rfl

/-- Claim C3 counterexample: a response whose body lacks the `record`
key does NOT increment the consecutive error count — the code returns
early without touching it, so it stays 0 instead of becoming 1. -/
theorem missing_record_no_error_increment :
    (check_bans (Tracker.init 0) (FetchOutcome.body none) 5).1.consecutive_errors = 0 ∧
    (check_bans (Tracker.init 0) (FetchOutcome.body none) 5).1.consecutive_errors ≠
      (Tracker.init 0).consecutive_errors + 1 := by
  exact ⟨rfl, by decide⟩

/-- Claim C3 (amended): a fetched body lacking the `record` key produces
no notifications and leaves the whole tracker state unchanged — the
error count is not incremented, and previous counters, totals and
last-successful-fetch time are untouched. -/
theorem missing_record_leaves_state_unchanged (st : Tracker) (now : Nat) :
    check_bans st (FetchOutcome.body none) now = (st, []) := rfl

/-- Claim C5: with a stored baseline, a non-positive delta for a counter
leaves that counter's cumulative total unchanged and emits no
notification for it, while the stored previous values are still updated
to the newly fetched values. -/
theorem nonpositive_delta_is_ignored (st : Tracker) (a b wd staff : Int) (now : Nat)
    (h1 : st.owd_bans = some a) (h2 : st.ostaff_bans = some b) :
    (wd - a ≤ 0 →
      (check_bans st (FetchOutcome.body (some ⟨some wd, some staff⟩)) now).1.total_wd_tracked
          = st.total_wd_tracked ∧
      ∀ d t, Embed.watchdog d t ∉
        (check_bans st (FetchOutcome.body (some ⟨some wd, some staff⟩)) now).2) ∧
    (staff - b ≤ 0 →
      (check_bans st (FetchOutcome.body (some ⟨some wd, some staff⟩)) now).1.total_staff_tracked
          = st.total_staff_tracked ∧
      ∀ d t, Embed.staff d t ∉
        (check_bans st (FetchOutcome.body (some ⟨some wd, some staff⟩)) now).2) ∧
    (check_bans st (FetchOutcome.body (some ⟨some wd, some staff⟩)) now).1.owd_bans = some wd ∧
    (check_bans st (FetchOutcome.body (some ⟨some wd, some staff⟩)) now).1.ostaff_bans
        = some staff := by
  rw [check_bans_step st a b wd staff now h1 h2, check_bans_step_embeds st a b wd staff now h1 h2]
  refine ⟨?_, ?_, rfl, rfl⟩
  · intro hle
    have hneg : ¬ (wd - a > 0) := by omega
    constructor
    · simp [hneg]
    · intro d t
      simp only [hneg, if_false, List.nil_append]
      split_ifs <;> simp
  · intro hle
    have hneg : ¬ (staff - b > 0) := by omega
    constructor
    · simp [hneg]
    · intro d t
      simp only [hneg, if_false, List.append_nil]
      split_ifs <;> simp

/-- A tracker with stored baseline (100, 50), the spec's Scenario C
starting point. -/
def trackerBase100 : Tracker :=
  { Tracker.init 0 with owd_bans := some 100, ostaff_bans := some 50 }

/-- Witness for C5: the spec's Scenario C, previous (100, 50), fetch
(95, 50). -/
theorem nonpositive_delta_is_ignored_witness :
    ((95 : Int) - 100 ≤ 0 →
      (check_bans trackerBase100
          (FetchOutcome.body (some ⟨some 95, some 50⟩)) 5).1.total_wd_tracked
          = trackerBase100.total_wd_tracked ∧
      ∀ d t, Embed.watchdog d t ∉
        (check_bans trackerBase100
          (FetchOutcome.body (some ⟨some 95, some 50⟩)) 5).2) ∧
    ((50 : Int) - 50 ≤ 0 →
      (check_bans trackerBase100
          (FetchOutcome.body (some ⟨some 95, some 50⟩)) 5).1.total_staff_tracked
          = trackerBase100.total_staff_tracked ∧
      ∀ d t, Embed.staff d t ∉
        (check_bans trackerBase100
          (FetchOutcome.body (some ⟨some 95, some 50⟩)) 5).2) ∧
    (check_bans trackerBase100
          (FetchOutcome.body (some ⟨some 95, some 50⟩)) 5).1.owd_bans = some 95 ∧
    (check_bans trackerBase100
          (FetchOutcome.body (some ⟨some 95, some 50⟩)) 5).1.ostaff_bans = some 50 :=
  nonpositive_delta_is_ignored trackerBase100 100 50 95 50 5 rfl rfl

/-- Claim C7: a tick whose fetch raises a network or parse error
increments the consecutive error count by exactly 1, leaves the
previous counters and cumulative totals unchanged, attempts no
delivery, and leaves the registry (in-memory and persisted) unchanged. -/
theorem fetch_failure_tick (get_channel : Int → Bool) (send : Int → SendOutcome)
    (tr : Tracker) (reg : Registry) (now : Nat) :
    check_loop get_channel send tr reg FetchOutcome.raised now =
      ({ tr with consecutive_errors := tr.consecutive_errors + 1 }, reg, []) := rfl

/-- Claim C8: a successful observation with both counter fields present
resets the consecutive error count to 0 and updates the
last-successful-fetch time, from any tracker state (in particular after
any number of recorded failures) and regardless of whether any delta
fired. -/
theorem successful_observe_resets_errors (st : Tracker) (wd staff : Int) (now : Nat) :
    (check_bans st (FetchOutcome.body (some ⟨some wd, some staff⟩)) now).1.consecutive_errors
        = 0 ∧
    (check_bans st (FetchOutcome.body (some ⟨some wd, some staff⟩)) now).1.last_fetch_time
        = some now := by
  rcases st with ⟨o1, o2, tw, ts, s, l, c⟩
  cases o1 <;> cases o2 <;> simp [check_bans] <;> split_ifs <;> simp

/-- One `check_bans` call never decreases either cumulative total,
whatever the fetch outcome. -/
lemma check_bans_mono (st : Tracker) (o : FetchOutcome) (now : Nat) :
    st.total_wd_tracked ≤ (check_bans st o now).1.total_wd_tracked ∧
    st.total_staff_tracked ≤ (check_bans st o now).1.total_staff_tracked := by
  cases o with
  | raised => simp [check_bans]
  | body r =>
    cases r with
    | none => simp [check_bans]
    | some r =>
      rcases r with ⟨w, stf⟩
      rcases st with ⟨o1, o2, tw, ts, s, l, c⟩
      cases o1 <;> cases o2 <;> cases w <;> cases stf <;>
        simp [check_bans] <;> split_ifs <;> simp <;> omega

/-- `observeRun` on the empty observation list. -/
lemma observeRun_nil (st : Tracker) (now : Nat) : observeRun st [] now = st := rfl

/-- `observeRun` unfolding on a cons. -/
lemma observeRun_cons (st : Tracker) (p : Int × Int) (obs : List (Int × Int)) (now : Nat) :
    observeRun st (p :: obs) now =
      observeRun (check_bans st (FetchOutcome.body (some ⟨some p.1, some p.2⟩)) now).1
        obs now := rfl

/-- A run of successful observations never decreases either total. -/
lemma observeRun_mono (obs : List (Int × Int)) (st : Tracker) (now : Nat) :
    st.total_wd_tracked ≤ (observeRun st obs now).total_wd_tracked ∧
    st.total_staff_tracked ≤ (observeRun st obs now).total_staff_tracked := by
  induction obs generalizing st with
  | nil => exact ⟨le_refl _, le_refl _⟩
  | cons p obs ih =>
    rw [observeRun_cons]
    have h1 := check_bans_mono st (FetchOutcome.body (some ⟨some p.1, some p.2⟩)) now
    have h2 := ih (check_bans st (FetchOutcome.body (some ⟨some p.1, some p.2⟩)) now).1
    exact ⟨le_trans h1.1 h2.1, le_trans h1.2 h2.2⟩

/-- From a state with a stored baseline, a run of successful
observations adds exactly the sum of the strictly positive deltas to
each cumulative total. -/
lemma observeRun_totals (obs : List (Int × Int)) (st : Tracker) (a b : Int) (now : Nat)
    (h1 : st.owd_bans = some a) (h2 : st.ostaff_bans = some b) :
    (observeRun st obs now).total_wd_tracked
        = st.total_wd_tracked + posDeltaSumFrom a (obs.map Prod.fst) ∧
    (observeRun st obs now).total_staff_tracked
        = st.total_staff_tracked + posDeltaSumFrom b (obs.map Prod.snd) := by
  induction obs generalizing st a b with
  | nil => simp [observeRun_nil, posDeltaSumFrom]
  | cons p obs ih =>
    rw [observeRun_cons]
    have hstep := check_bans_step st a b p.1 p.2 now h1 h2
    have ihp := ih (check_bans st (FetchOutcome.body (some ⟨some p.1, some p.2⟩)) now).1
      p.1 p.2 (by rw [hstep]) (by rw [hstep])
    rcases ihp with ⟨iw, istf⟩
    constructor
    · rw [iw, hstep]
      simp only [List.map_cons, posDeltaSumFrom]
      ring
    · rw [istf, hstep]
      simp only [List.map_cons, posDeltaSumFrom]
      ring

/-- Claim C1: over any sequence of successful fetches fed to a freshly
constructed tracker, the cumulative watchdog and staff totals are
monotonically non-decreasing (every prefix has totals bounded by the
full run), and after the run each total equals the sum of the strictly
positive deltas of the corresponding counter between consecutive
fetches, the first fetch serving as baseline. -/
theorem cumulative_totals_monotone_and_sum (start now : Nat)
    (pre suf obs : List (Int × Int)) :
    ((observeRun (Tracker.init start) pre now).total_wd_tracked ≤
       (observeRun (Tracker.init start) (pre ++ suf) now).total_wd_tracked) ∧
    ((observeRun (Tracker.init start) pre now).total_staff_tracked ≤
       (observeRun (Tracker.init start) (pre ++ suf) now).total_staff_tracked) ∧
    (observeRun (Tracker.init start) obs now).total_wd_tracked
        = posDeltaSum (obs.map Prod.fst) ∧
    (observeRun (Tracker.init start) obs now).total_staff_tracked
        = posDeltaSum (obs.map Prod.snd) := by
  have happ : observeRun (Tracker.init start) (pre ++ suf) now
      = observeRun (observeRun (Tracker.init start) pre now) suf now := by
    simp [observeRun, List.foldl_append]
  have hm := observeRun_mono suf (observeRun (Tracker.init start) pre now) now
  refine ⟨by rw [happ]; exact hm.1, by rw [happ]; exact hm.2, ?_, ?_⟩
  · cases obs with
    | nil => simp [observeRun_nil, posDeltaSum, Tracker.init]
    | cons p obs =>
      rw [observeRun_cons, check_bans_first (Tracker.init start) (some p.1) (some p.2) now rfl rfl]
      have := (observeRun_totals obs
        { Tracker.init start with
            owd_bans := some p.1
            ostaff_bans := some p.2
            last_fetch_time := some now
            consecutive_errors := 0 } p.1 p.2 now rfl rfl).1
      rw [this]
      simp [Tracker.init, posDeltaSum]
  · cases obs with
    | nil => simp [observeRun_nil, posDeltaSum, Tracker.init]
    | cons p obs =>
      rw [observeRun_cons, check_bans_first (Tracker.init start) (some p.1) (some p.2) now rfl rfl]
      have := (observeRun_totals obs
        { Tracker.init start with
            owd_bans := some p.1
            ostaff_bans := some p.2
            last_fetch_time := some now
            consecutive_errors := 0 } p.1 p.2 now rfl rfl).2
      rw [this]
      simp [Tracker.init, posDeltaSum]

/-- Claim C6 counterexample: after a first successful fetch storing the
counters (0, 5) at time 0, the baseline is established and a successful
fetch has occurred, yet the statistics embed omits both the current
total bans field (`if self.owd_bans and self.ostaff_bans:` is false for
a zero counter) and the last-check field (`if self.last_fetch_time:` is
false for timestamp 0). -/
theorem stats_embed_fields_absent_despite_baseline :
    ((check_bans (Tracker.init 0) (FetchOutcome.body (some ⟨some 0, some 5⟩)) 0).1.owd_bans
        ≠ none) ∧
    ((check_bans (Tracker.init 0) (FetchOutcome.body (some ⟨some 0, some 5⟩)) 0).1.ostaff_bans
        ≠ none) ∧
    ((check_bans (Tracker.init 0) (FetchOutcome.body (some ⟨some 0, some 5⟩)) 0).1.last_fetch_time
        ≠ none) ∧
    (get_stats_embed (check_bans (Tracker.init 0)
        (FetchOutcome.body (some ⟨some 0, some 5⟩)) 0).1 10).current_total_bans = none ∧
    (get_stats_embed (check_bans (Tracker.init 0)
        (FetchOutcome.body (some ⟨some 0, some 5⟩)) 0).1 10).last_check = none := by
  decide

/-- Claim C6 (amended): the statistics summary includes the current
absolute counter sum iff both last-observed counters are stored and
nonzero, and includes the last-check time iff the last-successful-fetch
time is stored and nonzero (Python truthiness of the fields). -/
theorem stats_embed_field_presence (st : Tracker) (now : Nat) :
    ((get_stats_embed st now).current_total_bans ≠ none ↔
      ∃ a b, st.owd_bans = some a ∧ st.ostaff_bans = some b ∧ a ≠ 0 ∧ b ≠ 0) ∧
    ((get_stats_embed st now).last_check ≠ none ↔
      ∃ t, st.last_fetch_time = some t ∧ t ≠ 0) := by
  rcases st with ⟨o1, o2, tw, ts, s, l, c⟩
  constructor
  · cases o1 <;> cases o2 <;> simp [get_stats_embed] <;> split_ifs <;> simp_all
  · cases l <;> simp [get_stats_embed] <;> split_ifs <;> simp_all

/-- Claim C9 counterexample: on a channel list containing a duplicated
id, removing the id twice is not the same as removing it once
(`list.remove` drops only the first occurrence). -/
theorem unsubscribe_not_idempotent_with_duplicates :
    unsubscribe (unsubscribe ⟨[5, 5], [5, 5]⟩ 5) 5 ≠ unsubscribe ⟨[5, 5], [5, 5]⟩ 5 := by
  decide

/-- Claim C9 (amended): on a duplicate-free registry state, `subscribe`
twice equals `subscribe` once and `unsubscribe` twice equals
`unsubscribe` once (in-memory list and persisted list alike); moreover
`subscribe` is a no-op when the id is present and `unsubscribe` is a
no-op when it is absent. -/
theorem subscribe_unsubscribe_idempotent (reg : Registry) (channel_id : Int)
    (h : reg.channel_ids.Nodup) :
    subscribe (subscribe reg channel_id) channel_id = subscribe reg channel_id ∧
    unsubscribe (unsubscribe reg channel_id) channel_id = unsubscribe reg channel_id ∧
    (channel_id ∈ reg.channel_ids → subscribe reg channel_id = reg) ∧
    (channel_id ∉ reg.channel_ids → unsubscribe reg channel_id = reg) := by
  refine ⟨?_, ?_, ?_, ?_⟩
  · by_cases hm : channel_id ∈ reg.channel_ids
    · simp [subscribe, hm]
    · simp [subscribe, hm]
  · by_cases hm : channel_id ∈ reg.channel_ids
    · have hout : channel_id ∉ reg.channel_ids.erase channel_id := h.not_mem_erase
      simp [unsubscribe, hm, hout]
    · simp [unsubscribe, hm]
  · intro hm
    simp [subscribe, hm]
  · intro hm
    simp [unsubscribe, hm]

/-- Witness for C9 (amended) on a concrete duplicate-free registry. -/
theorem subscribe_unsubscribe_idempotent_witness :
    subscribe (subscribe ⟨[1, 2], [1, 2]⟩ 2) 2 = subscribe ⟨[1, 2], [1, 2]⟩ 2 ∧
    unsubscribe (unsubscribe ⟨[1, 2], [1, 2]⟩ 2) 2 = unsubscribe ⟨[1, 2], [1, 2]⟩ 2 ∧
    ((2 : Int) ∈ (⟨[1, 2], [1, 2]⟩ : Registry).channel_ids →
      subscribe ⟨[1, 2], [1, 2]⟩ 2 = ⟨[1, 2], [1, 2]⟩) ∧
    ((2 : Int) ∉ (⟨[1, 2], [1, 2]⟩ : Registry).channel_ids →
      unsubscribe ⟨[1, 2], [1, 2]⟩ 2 = ⟨[1, 2], [1, 2]⟩) :=
  subscribe_unsubscribe_idempotent ⟨[1, 2], [1, 2]⟩ 2 (by decide)

/-- Whether a send outcome is a `discord.Forbidden` error. -/
def isForbidden : SendOutcome → Bool
  | SendOutcome.forbidden => true
  | _ => false

/-- Whether a send outcome is a successful delivery. -/
def isOk : SendOutcome → Bool
  | SendOutcome.ok => true
  | _ => false

/-- The delivery sweep collects exactly the unresolvable-or-forbidden
ids as `failed_channels` and the successfully delivered ids, in order. -/
lemma sweep_foldl (get_channel : Int → Bool) (send : Int → SendOutcome)
    (l : List Int) :
    ∀ (f0 d0 : List Int),
      l.foldl (sweepStep get_channel send) (f0, d0) =
        (f0 ++ l.filter (fun id => !(get_channel id) || isForbidden (send id)),
         d0 ++ l.filter (fun id => get_channel id && isOk (send id))) := by
  induction l with
  | nil => intro f0 d0; simp
  | cons a l ih =>
    intro f0 d0
    rw [List.foldl_cons]
    cases hgc : get_channel a with
    | false =>
      simp only [sweepStep, hgc, Bool.false_eq_true, if_false]
      rw [ih]
      simp [List.filter_cons, hgc]
    | true =>
      cases hs : send a with
      | ok =>
        simp only [sweepStep, hgc, if_true, hs]
        rw [ih]
        simp [List.filter_cons, hgc, hs, isForbidden, isOk]
      | forbidden =>
        simp only [sweepStep, hgc, if_true, hs]
        rw [ih]
        simp [List.filter_cons, hgc, hs, isForbidden, isOk]
      | httpError =>
        simp only [sweepStep, hgc, if_true, hs]
        rw [ih]
        simp [List.filter_cons, hgc, hs, isForbidden, isOk]

/-- The pruning loop never reintroduces an id. -/
lemma prune_foldl_not_mem_of_not_mem (f : List Int) :
    ∀ (l : List Int) (x : Int), x ∉ l → x ∉ f.foldl pruneStep l := by
  induction f with
  | nil => intro l x h; exact h
  | cons a f ih =>
    intro l x h
    rw [List.foldl_cons]
    apply ih
    unfold pruneStep
    split_ifs
    · intro hmem
      exact h (List.mem_of_mem_erase hmem)
    · exact h

/-- The pruning loop preserves duplicate-freedom. -/
lemma prune_foldl_nodup (f : List Int) :
    ∀ (l : List Int), l.Nodup → (f.foldl pruneStep l).Nodup := by
  induction f with
  | nil => intro l h; exact h
  | cons a f ih =>
    intro l h
    rw [List.foldl_cons]
    apply ih
    unfold pruneStep
    split_ifs
    · exact h.erase a
    · exact h

/-- On a duplicate-free list, pruning removes every id of the failed
list. -/
lemma prune_foldl_not_mem (f : List Int) :
    ∀ (l : List Int) (x : Int), l.Nodup → x ∈ f → x ∉ f.foldl pruneStep l := by
  induction f with
  | nil => intro l x _ h; cases h
  | cons a f ih =>
    intro l x hnd hx
    rw [List.foldl_cons]
    rcases List.mem_cons.mp hx with rfl | hx'
    · apply prune_foldl_not_mem_of_not_mem
      unfold pruneStep
      split_ifs with hm
      · exact hnd.not_mem_erase
      · exact hm
    · apply ih
      · unfold pruneStep
        split_ifs
        · exact hnd.erase a
        · exact hnd
      · exact hx'

/-- The validation loop preserves duplicate-freedom of the live list. -/
lemma validate_foldl_nodup (get_channel : Int → Bool) (f : List Int) :
    ∀ (acc : List Int × List Int), acc.2.Nodup →
      (f.foldl (validateStep get_channel) acc).2.Nodup := by
  induction f with
  | nil => intro acc h; exact h
  | cons a f ih =>
    intro acc h
    rw [List.foldl_cons]
    apply ih
    unfold validateStep
    split_ifs
    · exact h
    · exact h.erase a

/-- Claim C10: starting from a duplicate-free channel list, every
registry mutation — `subscribe`, `unsubscribe`, the `on_ready`
validation and a `check_loop` tick's pruning — yields a duplicate-free
channel list again, and the channels targeted by the delivery sweep of
a tick contain no repeats. -/
theorem registry_nodup_preserved (reg : Registry) (channel_id : Int)
    (get_channel : Int → Bool) (send : Int → SendOutcome) (tr : Tracker)
    (outcome : FetchOutcome) (now : Nat)
    (h : reg.channel_ids.Nodup) :
    (subscribe reg channel_id).channel_ids.Nodup ∧
    (unsubscribe reg channel_id).channel_ids.Nodup ∧
    (validate_channels get_channel reg).channel_ids.Nodup ∧
    (check_loop get_channel send tr reg outcome now).2.1.channel_ids.Nodup ∧
    (check_loop get_channel send tr reg outcome now).2.2.Nodup := by
  refine ⟨?_, ?_, ?_, ?_, ?_⟩
  · simp only [subscribe]
    split_ifs with hm
    · exact h
    · show (reg.channel_ids ++ [channel_id]).Nodup
      refine (List.nodup_append).mpr ⟨h, List.nodup_singleton _, ?_⟩
      intro x hx hx'
      simp only [List.mem_singleton] at hx'
      subst hx'
      exact hm hx
  · simp only [unsubscribe]
    split_ifs with hm
    · show (reg.channel_ids.erase channel_id).Nodup
      exact h.erase channel_id
    · exact h
  · simp only [validate_channels]
    split_ifs
    · exact validate_foldl_nodup get_channel reg.channel_ids ([], reg.channel_ids) h
    · exact validate_foldl_nodup get_channel reg.channel_ids ([], reg.channel_ids) h
  · simp only [check_loop]
    split_ifs
    · exact prune_foldl_nodup _ reg.channel_ids h
    · exact h
    · exact h
  · simp only [check_loop]
    rw [sweep_foldl get_channel send reg.channel_ids [] []]
    split_ifs
    · simpa using h.filter _
    · simpa using h.filter _
    · exact List.nodup_nil

/-- Witness for C10 on a concrete duplicate-free registry and tick. -/
theorem registry_nodup_preserved_witness :
    (subscribe ⟨[1, 2], [1, 2]⟩ 3).channel_ids.Nodup ∧
    (unsubscribe ⟨[1, 2], [1, 2]⟩ 3).channel_ids.Nodup ∧
    (validate_channels (fun _ => true) ⟨[1, 2], [1, 2]⟩).channel_ids.Nodup ∧
    (check_loop (fun _ => true) (fun _ => SendOutcome.ok) (Tracker.init 0) ⟨[1, 2], [1, 2]⟩
        FetchOutcome.raised 5).2.1.channel_ids.Nodup ∧
    (check_loop (fun _ => true) (fun _ => SendOutcome.ok) (Tracker.init 0) ⟨[1, 2], [1, 2]⟩
        FetchOutcome.raised 5).2.2.Nodup :=
  registry_nodup_preserved ⟨[1, 2], [1, 2]⟩ 3 (fun _ => true) (fun _ => SendOutcome.ok)
    (Tracker.init 0) FetchOutcome.raised 5 (by decide)

/-- A registry of three subscribed channels in sync with its persisted
form (used by the C4 theorems). -/
def regABC : Registry := ⟨[1, 2, 3], [1, 2, 3]⟩

/-- An environment in which every channel id resolves. -/
def allResolve : Int → Bool := fun _ => true

/-- Delivery raises `discord.HTTPException` on channel 2 and succeeds
elsewhere. -/
def sendHttpOn2 : Int → SendOutcome :=
  fun channel_id => if channel_id = 2 then SendOutcome.httpError else SendOutcome.ok

/-- Delivery raises `discord.Forbidden` on channel 2 and succeeds
elsewhere. -/
def sendForbidOn2 : Int → SendOutcome :=
  fun channel_id => if channel_id = 2 then SendOutcome.forbidden else SendOutcome.ok

/-- Claim C4 counterexample: in a tick that produces a notification,
channel 2 fails delivery with a transport-level error
(`discord.HTTPException`) yet is still present in the registry after the
tick — so a destination with a transport-level delivery failure is NOT
removed. -/
theorem http_failed_destination_not_pruned :
    (check_bans trackerBase100 (FetchOutcome.body (some ⟨some 103, some 50⟩)) 5).2 ≠ [] ∧
    sendHttpOn2 2 = SendOutcome.httpError ∧
    (check_loop allResolve sendHttpOn2 trackerBase100 regABC
        (FetchOutcome.body (some ⟨some 103, some 50⟩)) 5).2.1.channel_ids = [1, 2, 3] := by
  decide

/-- Claim C4 (amended): in every tick that produces at least one
notification, starting from a duplicate-free registry whose persisted
form matches the in-memory list, every destination that no longer
resolves or whose delivery is denied (`discord.Forbidden`) is absent
from the registry after the tick; the persisted channel list matches
the in-memory list afterwards; and every resolvable destination whose
send succeeds still receives the notifications in that same tick.
(Transport-level `HTTPException` failures are only logged; those
destinations are retained.) -/
theorem failed_destinations_pruned (get_channel : Int → Bool) (send : Int → SendOutcome)
    (tr : Tracker) (reg : Registry) (outcome : FetchOutcome) (now : Nat)
    (hnd : reg.channel_ids.Nodup)
    (hsync : reg.persisted = reg.channel_ids)
    (hbans : (check_bans tr outcome now).2 ≠ []) :
    (∀ channel_id ∈ reg.channel_ids,
        (get_channel channel_id = false ∨ send channel_id = SendOutcome.forbidden) →
        channel_id ∉
          (check_loop get_channel send tr reg outcome now).2.1.channel_ids) ∧
    (check_loop get_channel send tr reg outcome now).2.1.persisted
        = (check_loop get_channel send tr reg outcome now).2.1.channel_ids ∧
    (∀ channel_id ∈ reg.channel_ids,
        get_channel channel_id = true → send channel_id = SendOutcome.ok →
        channel_id ∈ (check_loop get_channel send tr reg outcome now).2.2) := by
  simp only [check_loop]
  rw [sweep_foldl get_channel send reg.channel_ids [] []]
  simp only [List.nil_append]
  split_ifs with h1
  · refine ⟨?_, rfl, ?_⟩
    · intro channel_id hid hfail
      apply prune_foldl_not_mem _ _ _ hnd
      refine List.mem_filter.mpr ⟨hid, ?_⟩
      rcases hfail with hgc | hfb
      · simp [hgc]
      · simp [hfb, isForbidden]
    · intro channel_id hid hgc hok
      exact List.mem_filter.mpr ⟨hid, by simp [hgc, hok, isOk]⟩
  · push_neg at h1
    refine ⟨?_, hsync, ?_⟩
    · intro channel_id hid hfail
      have hmem : channel_id ∈ reg.channel_ids.filter
          (fun id => !(get_channel id) || isForbidden (send id)) := by
        refine List.mem_filter.mpr ⟨hid, ?_⟩
        rcases hfail with hgc | hfb
        · simp [hgc]
        · simp [hfb, isForbidden]
      rw [h1] at hmem
      cases hmem
    · intro channel_id hid hgc hok
      exact List.mem_filter.mpr ⟨hid, by simp [hgc, hok, isOk]⟩

/-- Witness for C4 (amended): a concrete tick with one notification in
which channel 2 is denied, channels 1 and 3 succeed. -/
theorem failed_destinations_pruned_witness :
    (∀ channel_id ∈ regABC.channel_ids,
        (allResolve channel_id = false ∨ sendForbidOn2 channel_id = SendOutcome.forbidden) →
        channel_id ∉ (check_loop allResolve sendForbidOn2 trackerBase100 regABC
            (FetchOutcome.body (some ⟨some 103, some 50⟩)) 5).2.1.channel_ids) ∧
    (check_loop allResolve sendForbidOn2 trackerBase100 regABC
        (FetchOutcome.body (some ⟨some 103, some 50⟩)) 5).2.1.persisted
        = (check_loop allResolve sendForbidOn2 trackerBase100 regABC
            (FetchOutcome.body (some ⟨some 103, some 50⟩)) 5).2.1.channel_ids ∧
    (∀ channel_id ∈ regABC.channel_ids,
        allResolve channel_id = true → sendForbidOn2 channel_id = SendOutcome.ok →
        channel_id ∈ (check_loop allResolve sendForbidOn2 trackerBase100 regABC
            (FetchOutcome.body (some ⟨some 103, some 50⟩)) 5).2.2) :=
  failed_destinations_pruned allResolve sendForbidOn2 trackerBase100 regABC
    (FetchOutcome.body (some ⟨some 103, some 50⟩)) 5 (by decide) rfl (by decide)
